import Mathlib

/-!
Verification of the Learno teaching backend's core state machine
(`app/services/dynamic_lesson_service.py`, `app/services/session_service.py`,
`app/models/lesson_content.py`) against its natural-language specification.

The embedding is shallow: Python dataclasses become Lean structures, the
in-place mutations of `TeachingState` become explicit state passing, string
operations (`lower`, `strip`, substring `in`, `re.findall(r'\d+', ...)`) are
reimplemented character-wise with Python semantics, and the LLM / image
collaborators — whose output text is opaque to the state machine — are elided
from the pure model and modelled as a fallible oracle where the claims are
about collaborator failure.
-/

namespace Learno

/-! ## Python string primitives -/

/-- Python `str.lower()` (ASCII case folding; the repository's content is
ASCII apart from emoji, which `lower` leaves unchanged). -/
def pyLower (s : String) : String := String.mk (s.data.map Char.toLower)

/-- Whitespace characters stripped by Python `str.strip()` (the ASCII ones;
the repository's inputs contain no exotic Unicode whitespace). -/
def pySpace (c : Char) : Bool :=
  c == ' ' || c == '\t' || c == '\n' || c == '\r' || c == '\x0b' || c == '\x0c'

/-- Python `str.strip()`: drop whitespace from both ends. -/
def pyStrip (s : String) : String :=
  String.mk ((((s.data.dropWhile pySpace).reverse).dropWhile pySpace).reverse)

/-- Whether `pat` is a prefix of `l` (helper for the substring test). -/
def isPrefixL : List Char → List Char → Bool
  | [], _ => true
  | _ :: _, [] => false
  | c :: cs, h :: hs => c == h && isPrefixL cs hs

/-- Whether `needle` occurs as a contiguous sublist of `hay`.  As in Python,
the empty needle occurs in every string. -/
def containsL : List Char → List Char → Bool
  | needle, [] => needle.isEmpty
  | needle, h :: hs => isPrefixL needle (h :: hs) || containsL needle hs

/-- Python `needle in hay` substring test. -/
def pyContains (hay needle : String) : Bool := containsL needle.data hay.data

/-- Accumulator scanner for `digitRuns`: `acc` holds the digits of the run in
progress, reversed. -/
def digitRunsAux : List Char → List Char → List String
  | [], acc => if acc.isEmpty then [] else [String.mk acc.reverse]
  | c :: cs, acc =>
    if c.isDigit then digitRunsAux cs (c :: acc)
    else if acc.isEmpty then digitRunsAux cs []
    else String.mk acc.reverse :: digitRunsAux cs []

/-- Python `re.findall(r'\d+', s)`: the maximal runs of (ASCII) digits in
`s`, in order. -/
def digitRuns (s : String) : List String := digitRunsAux s.data []

/-! ## Lesson content data model (`app/models/lesson_content.py`)

Fields that only feed the prompt builders (scripts, question text, key
points, examples, image prompts, difficulty, certificate text, …) are never
read by the state machine and are elided from the embedding. -/

/-- Enum `ConceptPhase`: phases within teaching a concept. -/
inductive ConceptPhase where
  | introduction
  | explanation
  | visual_example
  | guided_practice
  | independent_practice
  | concept_check
  | completed
deriving DecidableEq, Repr

/-- Enum `LessonPhase`: overall lesson phases. -/
inductive LessonPhase where
  | welcome
  | teaching
  | chapter_review
  | celebration
  | completed
deriving DecidableEq, Repr

/-- Dataclass `PracticeQuestion` (the fields the state machine reads). -/
structure PracticeQuestion where
  expected_answer : String
  acceptable_answers : List String
  hint_text : String
deriving DecidableEq, Repr

instance : Inhabited PracticeQuestion := ⟨⟨"", [], ""⟩⟩

/-- Dataclass `ConceptContent` (the fields the state machine reads). -/
structure ConceptContent where
  concept_id : String
  guided_questions : List PracticeQuestion
  independent_questions : List PracticeQuestion
  mastery_answer : String
  mastery_acceptable : List String
deriving DecidableEq, Repr

instance : Inhabited ConceptContent := ⟨⟨"", [], [], "", []⟩⟩

/-- Dataclass `ChapterContent` (the fields the state machine reads). -/
structure ChapterContent where
  chapter_id : String
  concepts : List ConceptContent
  review_questions : List PracticeQuestion
deriving DecidableEq, Repr

/-- Property `ChapterContent.total_concepts`. -/
def ChapterContent.total_concepts (ch : ChapterContent) : Nat := ch.concepts.length

/-- The chapter built by `get_counting_chapter()`: five concepts and four
review questions, with the answer data (expected answer, acceptable variants,
hint) transcribed verbatim from the source; prompt-only text is elided. -/
def countingChapter : ChapterContent :=
  { chapter_id := "counting"
    concepts :=
      [ { concept_id := "numbers_1_to_5"
          guided_questions :=
            [ ⟨"2", ["2", "two", "to", "too"],
                "This number has a curvy top, like a swan swimming! 🦢"⟩,
              ⟨"4", ["4", "four", "for"],
                "This number looks like a chair you can sit on! 🪑"⟩ ]
          independent_questions :=
            [ ⟨"3", ["3", "three", "tree", "free"],
                "Count the bumps on the side... one bump, two bumps!"⟩,
              ⟨"5", ["5", "five", "fife"],
                "This number has a flat top like a hat, and a round belly!"⟩,
              ⟨"1", ["1", "one", "won"],
                "The simplest number! Just one straight line!"⟩ ]
          mastery_answer := "4"
          mastery_acceptable := ["4", "four", "for"] },
        { concept_id := "numbers_6_to_10"
          guided_questions :=
            [ ⟨"6", ["6", "six", "siz"], "It\'s curly like a snail! 🐌"⟩,
              ⟨"9", ["9", "nine", "nein"],
                "It\'s like 6 but upside down! Circle on top!"⟩ ]
          independent_questions :=
            [ ⟨"7", ["7", "seven", "saven"],
                "It has a flat line on top, like a shelf!"⟩,
              ⟨"8", ["8", "eight", "ate"],
                "Two circles on top of each other - like a snowman! ⛄"⟩,
              ⟨"10", ["10", "ten"], "Two digits together! A 1 and a 0!"⟩ ]
          mastery_answer := "8"
          mastery_acceptable := ["8", "eight", "ate"] },
        { concept_id := "counting_objects"
          guided_questions :=
            [ ⟨"3", ["3", "three", "tree", "free"],
                "Point to each apple: one, two, three! What\'s the last number?"⟩,
              ⟨"5", ["5", "five", "fife"],
                "One, two, three, four... one more! What number comes after 4?"⟩ ]
          independent_questions :=
            [ ⟨"4", ["4", "four", "for"], "Count each banana: one, two, three..."⟩,
              ⟨"6", ["6", "six", "siz"],
                "This is more than 5! Count carefully: one, two, three, four, five..."⟩,
              ⟨"7", ["7", "seven", "saven"],
                "After 6 comes 7! Count slowly and carefully!"⟩ ]
          mastery_answer := "5"
          mastery_acceptable := ["5", "five", "fife"] },
        { concept_id := "comparing_numbers"
          guided_questions :=
            [ ⟨"second", ["second", "2", "two", "the second", "right", "4", "four"],
                "Count both! First group has 2. Second group has 4. Which number is bigger?"⟩ ]
          independent_questions :=
            [ ⟨"stars", ["stars", "star", "6", "six", "the stars"],
                "Count stars: 6. Count hearts: 3. Which number is bigger?"⟩,
              ⟨"green", ["green", "3", "three", "the green"],
                "Blue: 7. Green: 3. Which number is SMALLER?"⟩,
              ⟨"equal", ["equal", "same", "both", "4", "neither", "they\'re the same"],
                "Count both... oranges: 4, lemons: 4. What if they\'re the SAME number?"⟩ ]
          mastery_answer := "first"
          mastery_acceptable := ["first", "1", "one", "5", "five", "left"] },
        { concept_id := "addition_intro"
          guided_questions :=
            [ ⟨"3", ["3", "three", "tree", "free"],
                "Put them together: 🍎🍎🍎 - now count: one, two, three!"⟩,
              ⟨"3", ["3", "three", "tree", "free"],
                "Together: ⚽⚽⚽ - count all the balls!"⟩ ]
          independent_questions :=
            [ ⟨"4", ["4", "four", "for"],
                "Two plus two! Hold up 2 fingers, then 2 more. Count all fingers!"⟩,
              ⟨"4", ["4", "four", "for"],
                "Three apples, and one more! Count: 1, 2, 3... plus one more!"⟩,
              ⟨"5", ["5", "five", "fife"],
                "Three plus two! You can use your fingers: hold up 3, then add 2 more!"⟩,
              ⟨"5", ["5", "five", "fife"],
                "Four things, add one more! What number comes after 4?"⟩ ]
          mastery_answer := "5"
          mastery_acceptable := ["5", "five", "fife"] } ]
    review_questions :=
      [ ⟨"7", ["7", "seven", "saven"], "It has a flat top and goes down!"⟩,
        ⟨"6", ["6", "six", "siz"], "One more than 5!"⟩,
        ⟨"9", ["9", "nine", "nein"], "Which number is bigger?"⟩,
        ⟨"6", ["6", "six", "siz"], "Three plus three! Count all together!"⟩ ] }

/-- Function `get_chapter`: case-insensitive, whitespace-trimmed lookup; a
fixed alias list and the `AVAILABLE_CHAPTERS` registry both resolve to the
counting chapter; anything else returns `None`. -/
def getChapter (chapter_id : String) : Option ChapterContent :=
  let idLower := pyStrip (pyLower chapter_id)
  let countingAliases :=
    ["counting", "counting fun", "counting fun adventure", "numbers", "count", "math basics"]
  if countingAliases.contains idLower then some countingChapter
  else if idLower = "counting" then some countingChapter
  else none

/-- Function `is_chapter_available`: membership test against the fixed
whitelist of grade-2 math topics, case- and whitespace-insensitive. -/
def isChapterAvailable (grade : Int) (subject lesson : String) : Bool :=
  let subjectLower := pyStrip (pyLower subject)
  let lessonLower := pyStrip (pyLower lesson)
  let validTopics :=
    ["counting", "comparing and ordering", "skip counting and number patterns",
     "names of numbers", "even and odd", "mixed operations: one digit",
     "mixed operations one digit"]
  grade == 2 && subjectLower == "math" && validTopics.contains lessonLower

/-! ## Teaching state (`TeachingState` dataclass) -/

/-- Dataclass `TeachingState`: per-session mutable teaching progress, with
the source's field defaults. -/
structure TeachingState where
  lesson_phase : LessonPhase := .welcome
  current_concept_index : Nat := 0
  concept_phase : ConceptPhase := .introduction
  guided_question_index : Nat := 0
  independent_question_index : Nat := 0
  review_question_index : Nat := 0
  current_attempts : Nat := 0
  total_correct : Nat := 0
  total_wrong : Nat := 0
  consecutive_wrong : Nat := 0
  needs_extra_help : Bool := false
  current_expected_answer : Option String := none
  current_acceptable_answers : List String := []
  current_hint : String := ""
deriving DecidableEq, Repr

instance : Inhabited TeachingState := ⟨{}⟩

/-- Method `TeachingState.reset_attempts`. -/
def TeachingState.reset_attempts (st : TeachingState) : TeachingState :=
  { st with current_attempts := 0, consecutive_wrong := 0 }

/-- Method `TeachingState.record_correct`. -/
def TeachingState.record_correct (st : TeachingState) : TeachingState :=
  { st with total_correct := st.total_correct + 1,
            consecutive_wrong := 0,
            needs_extra_help := false }

/-- Method `TeachingState.record_wrong`: bump the wrong totals and attempt
counters, and derive `needs_extra_help` once `consecutive_wrong ≥ 3`. -/
def TeachingState.record_wrong (st : TeachingState) : TeachingState :=
  let st := { st with total_wrong := st.total_wrong + 1,
                      current_attempts := st.current_attempts + 1,
                      consecutive_wrong := st.consecutive_wrong + 1 }
  if st.consecutive_wrong ≥ 3 then { st with needs_extra_help := true } else st

/-! ## Answer evaluation (`DynamicLessonService._evaluate_answer`) -/

/-- Method `_evaluate_answer`: `True` when there is no pending expectation
(Python falsiness: `None` or the empty string), on a case-insensitive exact
match of the stripped transcript, on a case-insensitive substring match in
either direction against an acceptable variant, or when the expected answer
occurs among the transcript's digit runs. -/
def evaluateAnswer (transcript : String) (st : TeachingState) : Bool :=
  match st.current_expected_answer with
  | none => true
  | some expected =>
    if expected = "" then true
    else
      let normalized := pyStrip (pyLower transcript)
      if normalized = pyLower expected then true
      else if st.current_acceptable_answers.any (fun a =>
          pyContains normalized (pyLower a) || pyContains (pyLower a) normalized) then true
      else
        let numbers := digitRuns transcript
        if numbers ≠ [] ∧ expected ∈ numbers then true
        else false

/-! ## Responses and progress snapshots

The learner-facing `text` and `image_url` of `LearnoResponse` are opaque
collaborator output and are elided; the state machine's observable output is
the response type, the completion flag and the progress snapshot. -/

/-- Snapshot produced by `_get_progress_info`. -/
structure ProgressInfo where
  lesson_phase : LessonPhase
  current_concept : Nat
  total_concepts : Nat
  concept_phase : ConceptPhase
  total_correct : Nat
  total_wrong : Nat
deriving DecidableEq, Repr

/-- Method `_get_progress_info`. -/
def getProgressInfo (st : TeachingState) (ch : ChapterContent) : ProgressInfo :=
  { lesson_phase := st.lesson_phase
    current_concept := st.current_concept_index + 1
    total_concepts := ch.total_concepts
    concept_phase := st.concept_phase
    total_correct := st.total_correct
    total_wrong := st.total_wrong }

/-- Dataclass `LearnoResponse` (opaque text/image elided). -/
structure LearnoResponse where
  response_type : String
  is_lesson_complete : Bool := false
  progress_info : ProgressInfo
deriving DecidableEq, Repr

/-! ## The Advance operation (`continue_teaching` and its `_do_*` handlers)

Each handler first performs the phrasing render (elided here: the pure model
assumes the collaborator succeeds; the fallible model below makes the render
explicit) and then applies the source's state mutations in order. -/

/-- Handler `_do_introduction`. -/
def doIntroduction (st : TeachingState) (_concept : ConceptContent)
    (ch : ChapterContent) : TeachingState × LearnoResponse :=
  let st := { st with concept_phase := .explanation }
  (st, { response_type := "concept_introduction", progress_info := getProgressInfo st ch })

/-- Handler `_do_explanation`. -/
def doExplanation (st : TeachingState) (_concept : ConceptContent)
    (ch : ChapterContent) : TeachingState × LearnoResponse :=
  let st := { st with concept_phase := .visual_example }
  (st, { response_type := "explanation", progress_info := getProgressInfo st ch })

/-- Handler `_do_visual_example` (the illustration call never raises; its
failure is logged and the step proceeds). -/
def doVisualExample (st : TeachingState) (_concept : ConceptContent)
    (ch : ChapterContent) : TeachingState × LearnoResponse :=
  let st := { st with concept_phase := .guided_practice, guided_question_index := 0 }
  (st, { response_type := "visual_example", progress_info := getProgressInfo st ch })

/-- Handler `_do_mastery_check`: stash the concept's mastery question as the
pending expectation. -/
def doMasteryCheck (st : TeachingState) (concept : ConceptContent)
    (ch : ChapterContent) : TeachingState × LearnoResponse :=
  let st := { st with current_expected_answer := some concept.mastery_answer,
                      current_acceptable_answers := concept.mastery_acceptable,
                      current_hint := "Think about what we just learned!" }
  (st, { response_type := "mastery_check", progress_info := getProgressInfo st ch })

/-- Handler `_do_independent_practice`: past the last independent question,
move to `CONCEPT_CHECK` and fall through to the mastery check; otherwise
render the question at the independent index and stash it as the pending
expectation (the index advances only on a later correct answer). -/
def doIndependentPractice (st : TeachingState) (concept : ConceptContent)
    (ch : ChapterContent) : TeachingState × LearnoResponse :=
  if st.independent_question_index ≥ concept.independent_questions.length then
    let st := { st with concept_phase := .concept_check }
    doMasteryCheck st concept ch
  else
    let q := concept.independent_questions.getD st.independent_question_index default
    let st := { st with current_expected_answer := some q.expected_answer,
                        current_acceptable_answers := q.acceptable_answers,
                        current_hint := q.hint_text }
    (st, { response_type := "independent_practice", progress_info := getProgressInfo st ch })

/-- Handler `_do_guided_practice`: past the last guided question, move to
`INDEPENDENT_PRACTICE` (resetting its index) and fall through; otherwise
render the question at the guided index and stash it as the pending
expectation (the index advances only on a later correct answer). -/
def doGuidedPractice (st : TeachingState) (concept : ConceptContent)
    (ch : ChapterContent) : TeachingState × LearnoResponse :=
  if st.guided_question_index ≥ concept.guided_questions.length then
    let st := { st with concept_phase := .independent_practice,
                        independent_question_index := 0 }
    doIndependentPractice st concept ch
  else
    let q := concept.guided_questions.getD st.guided_question_index default
    let st := { st with current_expected_answer := some q.expected_answer,
                        current_acceptable_answers := q.acceptable_answers,
                        current_hint := q.hint_text }
    (st, { response_type := "guided_practice", progress_info := getProgressInfo st ch })

/-- Handler `_do_celebration`: render the celebration and mark the lesson
`COMPLETED` and complete. -/
def doCelebration (st : TeachingState) (ch : ChapterContent) :
    TeachingState × LearnoResponse :=
  let st := { st with lesson_phase := .completed }
  (st, { response_type := "celebration", is_lesson_complete := true,
         progress_info := getProgressInfo st ch })

/-- Handler `_do_chapter_review`: past the last review question, enter
`CELEBRATION` and fall through; otherwise render the review question at the
review index and stash it as the pending expectation. -/
def doChapterReview (st : TeachingState) (ch : ChapterContent) :
    TeachingState × LearnoResponse :=
  if st.review_question_index ≥ ch.review_questions.length then
    let st := { st with lesson_phase := .celebration }
    doCelebration st ch
  else
    let q := ch.review_questions.getD st.review_question_index default
    let st := { st with current_expected_answer := some q.expected_answer,
                        current_acceptable_answers := q.acceptable_answers,
                        current_hint := q.hint_text }
    (st, { response_type := "chapter_review", progress_info := getProgressInfo st ch })

/-- Method `continue_teaching` (the core dispatch, with session lookup and
chapter resolution factored out into the orchestrated `continueTeachingW`):
once the concept index passes the last concept, (re-)enter `CHAPTER_REVIEW`
— resetting the review index whenever the phase was anything else — and run
the review; otherwise dispatch on the concept phase, the `COMPLETED` phase
advancing the concept index and recursing.  The recursion terminates because
each self-call strictly increases the concept index, which the guard bounds
by the number of concepts. -/
def continueTeaching (st : TeachingState) (ch : ChapterContent) :
    TeachingState × LearnoResponse :=
  if h : st.current_concept_index ≥ ch.total_concepts then
    let st := if st.lesson_phase ≠ .chapter_review
              then { st with lesson_phase := .chapter_review, review_question_index := 0 }
              else st
    doChapterReview st ch
  else
    let concept := ch.concepts.getD st.current_concept_index default
    match st.concept_phase with
    | .introduction => doIntroduction st concept ch
    | .explanation => doExplanation st concept ch
    | .visual_example => doVisualExample st concept ch
    | .guided_practice => doGuidedPractice st concept ch
    | .independent_practice => doIndependentPractice st concept ch
    | .concept_check => doMasteryCheck st concept ch
    | .completed =>
      continueTeaching
        (TeachingState.reset_attempts
          { st with current_concept_index := st.current_concept_index + 1,
                    concept_phase := .introduction }) ch
termination_by ch.total_concepts - st.current_concept_index
decreasing_by
  simp only [TeachingState.reset_attempts, ChapterContent.total_concepts] at *
  omega

/-- Fuel-indexed variant of `continue_teaching`, identical to
`continueTeaching` except that each self-call consumes one unit of fuel and
exhausted fuel yields `none`; it makes the claimed bound on the
self-recursion stateable. -/
def continueTeachingFuel : Nat → TeachingState → ChapterContent →
    Option (TeachingState × LearnoResponse)
  | 0, _, _ => none
  | fuel + 1, st, ch =>
    if st.current_concept_index ≥ ch.total_concepts then
      let st := if st.lesson_phase ≠ .chapter_review
                then { st with lesson_phase := .chapter_review, review_question_index := 0 }
                else st
      some (doChapterReview st ch)
    else
      let concept := ch.concepts.getD st.current_concept_index default
      match st.concept_phase with
      | .introduction => some (doIntroduction st concept ch)
      | .explanation => some (doExplanation st concept ch)
      | .visual_example => some (doVisualExample st concept ch)
      | .guided_practice => some (doGuidedPractice st concept ch)
      | .independent_practice => some (doIndependentPractice st concept ch)
      | .concept_check => some (doMasteryCheck st concept ch)
      | .completed =>
        continueTeachingFuel fuel
          (TeachingState.reset_attempts
            { st with current_concept_index := st.current_concept_index + 1,
                      concept_phase := .introduction }) ch

/-! ## The Evaluate operation (`process_response` and its handlers) -/

/-- Method `_advance_after_correct`: reset the attempt counters, then advance
the cursor relevant to the current concept phase (or, in `CHAPTER_REVIEW`,
the review index). -/
def advanceAfterCorrect (st : TeachingState) : TeachingState :=
  let st := st.reset_attempts
  if st.concept_phase = .guided_practice then
    { st with guided_question_index := st.guided_question_index + 1 }
  else if st.concept_phase = .independent_practice then
    { st with independent_question_index := st.independent_question_index + 1 }
  else if st.concept_phase = .concept_check then
    { st with concept_phase := .completed }
  else if st.lesson_phase = .chapter_review then
    { st with review_question_index := st.review_question_index + 1 }
  else st

/-- Method `_handle_correct_answer`: render praise, advance the relevant
cursor, then run Advance for the next prompt; the returned response carries
the Advance step's type, completion flag and snapshot (the praise text is
prepended to the opaque text). -/
def handleCorrectAnswer (st : TeachingState) (ch : ChapterContent) :
    TeachingState × LearnoResponse :=
  let st := advanceAfterCorrect st
  let r := continueTeaching st ch
  (r.1, { response_type := r.2.response_type,
          is_lesson_complete := r.2.is_lesson_complete,
          progress_info := r.2.progress_info })

/-- Method `_handle_wrong_answer`: render a hint; no cursor moves. -/
def handleWrongAnswer (st : TeachingState) (ch : ChapterContent) :
    TeachingState × LearnoResponse :=
  (st, { response_type := "hint", progress_info := getProgressInfo st ch })

/-- Method `process_response` (core part, after session lookup): evaluate the
transcript against the pending expectation and dispatch. -/
def processResponse (transcript : String) (st : TeachingState)
    (ch : ChapterContent) : TeachingState × LearnoResponse :=
  if evaluateAnswer transcript st then
    handleCorrectAnswer st.record_correct ch
  else
    handleWrongAnswer st.record_wrong ch

/-- Method `handle_silence` (core part): render an encouragement from the
pending hint; no counter or cursor changes. -/
def handleSilence (st : TeachingState) (ch : ChapterContent) :
    TeachingState × LearnoResponse :=
  (st, { response_type := "silence_hint", progress_info := getProgressInfo st ch })

/-! ## Fallible-collaborator model

The text-phrasing collaborator (`ai_client.generate_response`) can raise; the
illustration collaborator returns an error value and never raises.  The model
indexes the text calls of an operation by a counter `k` and an oracle
`env : Nat → Bool` saying whether the `k`-th call succeeds.  A failing call
propagates as `Except.error st` carrying the teaching state as it stands at
the moment of the raise — in Python the state object is mutated in place, so
exactly the mutations already performed are visible after the abort. -/

/-- Fallible `_do_introduction`: render first, mutate after. -/
def doIntroductionF (env : Nat → Bool) (k : Nat) (st : TeachingState)
    (_concept : ConceptContent) (ch : ChapterContent) :
    Except TeachingState (TeachingState × LearnoResponse × Nat) :=
  if env k then
    let st := { st with concept_phase := .explanation }
    .ok (st, { response_type := "concept_introduction",
               progress_info := getProgressInfo st ch }, k + 1)
  else .error st

/-- Fallible `_do_explanation`. -/
def doExplanationF (env : Nat → Bool) (k : Nat) (st : TeachingState)
    (_concept : ConceptContent) (ch : ChapterContent) :
    Except TeachingState (TeachingState × LearnoResponse × Nat) :=
  if env k then
    let st := { st with concept_phase := .visual_example }
    .ok (st, { response_type := "explanation",
               progress_info := getProgressInfo st ch }, k + 1)
  else .error st

/-- Fallible `_do_visual_example`: the text render can raise; the subsequent
illustration call cannot. -/
def doVisualExampleF (env : Nat → Bool) (k : Nat) (st : TeachingState)
    (_concept : ConceptContent) (ch : ChapterContent) :
    Except TeachingState (TeachingState × LearnoResponse × Nat) :=
  if env k then
    let st := { st with concept_phase := .guided_practice, guided_question_index := 0 }
    .ok (st, { response_type := "visual_example",
               progress_info := getProgressInfo st ch }, k + 1)
  else .error st

/-- Fallible `_do_mastery_check`. -/
def doMasteryCheckF (env : Nat → Bool) (k : Nat) (st : TeachingState)
    (concept : ConceptContent) (ch : ChapterContent) :
    Except TeachingState (TeachingState × LearnoResponse × Nat) :=
  if env k then
    let st := { st with current_expected_answer := some concept.mastery_answer,
                        current_acceptable_answers := concept.mastery_acceptable,
                        current_hint := "Think about what we just learned!" }
    .ok (st, { response_type := "mastery_check",
               progress_info := getProgressInfo st ch }, k + 1)
  else .error st

/-- Fallible `_do_independent_practice`: the phase-skip mutation precedes the
fall-through render. -/
def doIndependentPracticeF (env : Nat → Bool) (k : Nat) (st : TeachingState)
    (concept : ConceptContent) (ch : ChapterContent) :
    Except TeachingState (TeachingState × LearnoResponse × Nat) :=
  if st.independent_question_index ≥ concept.independent_questions.length then
    doMasteryCheckF env k { st with concept_phase := .concept_check } concept ch
  else if env k then
    let q := concept.independent_questions.getD st.independent_question_index default
    let st := { st with current_expected_answer := some q.expected_answer,
                        current_acceptable_answers := q.acceptable_answers,
                        current_hint := q.hint_text }
    .ok (st, { response_type := "independent_practice",
               progress_info := getProgressInfo st ch }, k + 1)
  else .error st

/-- Fallible `_do_guided_practice`: the phase-skip mutation precedes the
fall-through render. -/
def doGuidedPracticeF (env : Nat → Bool) (k : Nat) (st : TeachingState)
    (concept : ConceptContent) (ch : ChapterContent) :
    Except TeachingState (TeachingState × LearnoResponse × Nat) :=
  if st.guided_question_index ≥ concept.guided_questions.length then
    doIndependentPracticeF env k
      { st with concept_phase := .independent_practice, independent_question_index := 0 }
      concept ch
  else if env k then
    let q := concept.guided_questions.getD st.guided_question_index default
    let st := { st with current_expected_answer := some q.expected_answer,
                        current_acceptable_answers := q.acceptable_answers,
                        current_hint := q.hint_text }
    .ok (st, { response_type := "guided_practice",
               progress_info := getProgressInfo st ch }, k + 1)
  else .error st

/-- Fallible `_do_celebration`. -/
def doCelebrationF (env : Nat → Bool) (k : Nat) (st : TeachingState)
    (ch : ChapterContent) :
    Except TeachingState (TeachingState × LearnoResponse × Nat) :=
  if env k then
    let st := { st with lesson_phase := .completed }
    .ok (st, { response_type := "celebration", is_lesson_complete := true,
               progress_info := getProgressInfo st ch }, k + 1)
  else .error st

/-- Fallible `_do_chapter_review`: the phase mutation to `CELEBRATION`
precedes the fall-through render. -/
def doChapterReviewF (env : Nat → Bool) (k : Nat) (st : TeachingState)
    (ch : ChapterContent) :
    Except TeachingState (TeachingState × LearnoResponse × Nat) :=
  if st.review_question_index ≥ ch.review_questions.length then
    doCelebrationF env k { st with lesson_phase := .celebration } ch
  else if env k then
    let q := ch.review_questions.getD st.review_question_index default
    let st := { st with current_expected_answer := some q.expected_answer,
                        current_acceptable_answers := q.acceptable_answers,
                        current_hint := q.hint_text }
    .ok (st, { response_type := "chapter_review",
               progress_info := getProgressInfo st ch }, k + 1)
  else .error st

/-- Fallible `continue_teaching`: the review-entry and concept-advance
mutations happen before any render of the dispatched handler. -/
def continueTeachingF (env : Nat → Bool) (k : Nat) (st : TeachingState)
    (ch : ChapterContent) :
    Except TeachingState (TeachingState × LearnoResponse × Nat) :=
  if h : st.current_concept_index ≥ ch.total_concepts then
    let st := if st.lesson_phase ≠ .chapter_review
              then { st with lesson_phase := .chapter_review, review_question_index := 0 }
              else st
    doChapterReviewF env k st ch
  else
    let concept := ch.concepts.getD st.current_concept_index default
    match st.concept_phase with
    | .introduction => doIntroductionF env k st concept ch
    | .explanation => doExplanationF env k st concept ch
    | .visual_example => doVisualExampleF env k st concept ch
    | .guided_practice => doGuidedPracticeF env k st concept ch
    | .independent_practice => doIndependentPracticeF env k st concept ch
    | .concept_check => doMasteryCheckF env k st concept ch
    | .completed =>
      continueTeachingF env k
        (TeachingState.reset_attempts
          { st with current_concept_index := st.current_concept_index + 1,
                    concept_phase := .introduction }) ch
termination_by ch.total_concepts - st.current_concept_index
decreasing_by
  simp only [TeachingState.reset_attempts, ChapterContent.total_concepts] at *
  omega

/-- Fallible `process_response`: the counter update (`record_correct` /
`record_wrong`) happens before the praise/hint render, so a failing render
aborts with the counters already changed. -/
def processResponseF (env : Nat → Bool) (k : Nat) (transcript : String)
    (st : TeachingState) (ch : ChapterContent) :
    Except TeachingState (TeachingState × LearnoResponse × Nat) :=
  if evaluateAnswer transcript st then
    let st := st.record_correct
    if env k then
      continueTeachingF env (k + 1) (advanceAfterCorrect st) ch
    else .error st
  else
    let st := st.record_wrong
    if env k then
      .ok (st, { response_type := "hint", progress_info := getProgressInfo st ch }, k + 1)
    else .error st

/-! ## Orchestration: sessions and the exposed operations

The session timestamps drive only wall-clock expiry, which a shallow
embedding does not model; `get_session` therefore fails exactly on unknown
ids here.  Maps are association lists whose keys, like Python dict keys, are
unique. -/

/-- Class `Session` (`session_service.py`); timestamps elided. -/
structure Session where
  session_id : String
  grade : Int
  subject : String
  lesson : String
  total_steps : Nat := 0
  is_complete : Bool := false
deriving DecidableEq, Repr

/-- Error taxonomy (`app/utils/exceptions.py`, the kinds the core raises). -/
inductive LessonError where
  | sessionNotFound
  | sessionExpired
  | lessonNotAvailable
  | aiServiceError
deriving DecidableEq, Repr

/-- Python `del m[id]` / absence-tolerant removal from a keyed map. -/
def removeKey {α : Type} (m : List (String × α)) (id : String) : List (String × α) :=
  m.filter (fun p => p.1 ≠ id)

/-- Python `m[id] = v` on a keyed map. -/
def insertKey {α : Type} (m : List (String × α)) (id : String) (v : α) :
    List (String × α) :=
  (id, v) :: removeKey m id

/-- The process state: the session store's map and the lesson service's
`_teaching_states` map. -/
structure World where
  sessions : List (String × Session) := []
  teaching_states : List (String × TeachingState) := []
deriving DecidableEq, Repr

/-- Method `SessionService.delete_session`: absence-tolerant removal. -/
def deleteSession (m : List (String × Session)) (id : String) :
    List (String × Session) :=
  removeKey m id

/-- Method `DynamicLessonService._get_state`: return the stored teaching
state, fabricating (and storing) a fresh one for an unknown id. -/
def getStateM (m : List (String × TeachingState)) (id : String) :
    List (String × TeachingState) × TeachingState :=
  match m.lookup id with
  | some st => (m, st)
  | none => (insertKey m id {}, {})

/-- Method `start_lesson`: availability gate, then session creation, chapter
resolution (with the documented fallback to the counting chapter), welcome
render, and the phase hand-off to `TEACHING` — which precedes the progress
snapshot placed in the response.  `newId` stands for the generated UUID. -/
def startLesson (w : World) (newId : String) (grade : Int)
    (subject lesson : String) :
    Except LessonError (World × Session × LearnoResponse) :=
  if ¬ isChapterAvailable grade subject lesson then
    .error .lessonNotAvailable
  else
    let session : Session :=
      { session_id := newId, grade := grade, subject := subject, lesson := lesson }
    let chapter := match getChapter lesson with
                   | some c => c
                   | none => countingChapter
    let (ts, state) := getStateM w.teaching_states newId
    let state := { state with lesson_phase := .welcome }
    -- welcome render (collaborator call; the pure model assumes success)
    let state := { state with lesson_phase := .teaching,
                              current_concept_index := 0,
                              concept_phase := .introduction }
    let session := { session with total_steps := chapter.total_concepts * 6 }
    let w := { w with sessions := insertKey w.sessions newId session,
                      teaching_states := insertKey ts newId state }
    .ok (w, session,
         { response_type := "welcome", progress_info := getProgressInfo state chapter })

/-- Operation `ContinueTeaching`: session lookup, chapter resolution, then
the core Advance; the mutated state is stored back. -/
def continueTeachingW (w : World) (id : String) :
    Except LessonError (World × LearnoResponse) :=
  match w.sessions.lookup id with
  | none => .error .sessionNotFound
  | some session =>
    let (ts, st) := getStateM w.teaching_states id
    let chapter := match getChapter session.lesson with
                   | some c => c
                   | none => countingChapter
    let r := continueTeaching st chapter
    .ok ({ w with teaching_states := insertKey ts id r.1 }, r.2)

/-- Operation `SubmitAnswer`: session lookup, then the core Evaluate. -/
def processResponseW (w : World) (id : String) (transcript : String) :
    Except LessonError (World × LearnoResponse) :=
  match w.sessions.lookup id with
  | none => .error .sessionNotFound
  | some session =>
    let (ts, st) := getStateM w.teaching_states id
    let chapter := match getChapter session.lesson with
                   | some c => c
                   | none => countingChapter
    let r := processResponse transcript st chapter
    .ok ({ w with teaching_states := insertKey ts id r.1 }, r.2)

/-- Summary returned by `end_lesson` (the farewell message is opaque text
and elided). -/
structure LessonSummary where
  concepts_completed : Nat
  total_correct : Nat
  total_wrong : Nat
  is_complete : Bool
deriving DecidableEq, Repr

/-- Method `end_lesson`: no session validation at all — `_get_state`
fabricates a fresh state for an unknown id — then summarize and delete the
teaching state and the session entry. -/
def endLesson (w : World) (id : String) : LessonSummary × World :=
  let (ts, st) := getStateM w.teaching_states id
  let summary : LessonSummary :=
    { concepts_completed := st.current_concept_index
      total_correct := st.total_correct
      total_wrong := st.total_wrong
      is_complete := st.lesson_phase == .completed }
  let ts := removeKey ts id
  let sessions := deleteSession w.sessions id
  (summary, { sessions := sessions, teaching_states := ts })

/-! ## Operation traces over one session's teaching state -/

/-- One core operation reaching the state machine of a given session (an
operation against an unknown or expired session fails before touching
teaching state and so does not appear in a trace). -/
inductive TeachOp where
  | continueStep
  | submit (transcript : String)
  | silence
deriving DecidableEq, Repr

/-- Run one operation, keeping the resulting teaching state. -/
def stepOp (ch : ChapterContent) (st : TeachingState) : TeachOp → TeachingState
  | .continueStep => (continueTeaching st ch).1
  | .submit t => (processResponse t st ch).1
  | .silence => (handleSilence st ch).1

/-- Run a trace of operations left to right. -/
def runOps (ch : ChapterContent) (st : TeachingState) : List TeachOp → TeachingState
  | [] => st
  | op :: ops => runOps ch (stepOp ch st op) ops

/-- Number of `SubmitAnswer` calls in a trace (each reaches an evaluation). -/
def countEvaluated : List TeachOp → Nat
  | [] => 0
  | .submit _ :: ops => countEvaluated ops + 1
  | _ :: ops => countEvaluated ops

/-! ## Specification-side definitions and concrete states used by the claims -/

/-- The specification's answer-correctness rule, written from the spec's own
words (for comparison with the source-derived `evaluateAnswer`): correct iff
(d) there is no pending expectation (absence in the source's encoding: the
expected answer unset or empty), or (a) the lowercased, trimmed transcript
exactly equals the lowercased canonical expected answer, or (b) some
acceptable variant matches the normalized transcript as a substring in either
direction (case-insensitively), or (c) the transcript contains digit runs and
the canonical expected answer is among them. -/
def specCorrect (transcript : String) (st : TeachingState) : Prop :=
  (st.current_expected_answer = none ∨ st.current_expected_answer = some "") ∨
  (∃ expected, st.current_expected_answer = some expected ∧
    (pyStrip (pyLower transcript) = pyLower expected ∨
     (∃ a ∈ st.current_acceptable_answers,
        pyContains (pyStrip (pyLower transcript)) (pyLower a) = true ∨
        pyContains (pyLower a) (pyStrip (pyLower transcript)) = true) ∨
     (digitRuns transcript ≠ [] ∧ expected ∈ digitRuns transcript)))

/-- The teaching state stored by a successful `start_lesson` (fresh state
whose lesson phase was handed off to `TEACHING` after the welcome render). -/
def postStartState : TeachingState :=
  { lesson_phase := .teaching, current_concept_index := 0, concept_phase := .introduction }

/-- The session record stored by
`startLesson {} "s1" 2 "Math" "counting"` (thirty steps: five concepts times
six phases). -/
def startedSession : Session :=
  { session_id := "s1", grade := 2, subject := "Math", lesson := "counting",
    total_steps := 30 }

/-- The world after `startLesson {} "s1" 2 "Math" "counting"`. -/
def startedWorld : World :=
  { sessions := [("s1", startedSession)],
    teaching_states := [("s1", postStartState)] }

/-- A teaching state as it stands right after the celebration of the counting
chapter: lesson `COMPLETED`, concept index past the five concepts, all four
review questions answered (the last review expectation is still stashed). -/
def completedState : TeachingState :=
  { lesson_phase := .completed, current_concept_index := 5,
    concept_phase := .introduction, review_question_index := 4,
    total_correct := 20, total_wrong := 3,
    current_expected_answer := some "6",
    current_acceptable_answers := ["6", "six", "siz"],
    current_hint := "Three plus three! Count all together!" }

/-- A teaching state awaiting the first guided-practice answer of the first
counting concept. -/
def guidedState : TeachingState :=
  { lesson_phase := .teaching, current_concept_index := 0,
    concept_phase := .guided_practice, guided_question_index := 0,
    current_expected_answer := some "2",
    current_acceptable_answers := ["2", "two", "to", "too"],
    current_hint := "This number has a curvy top, like a swan swimming! 🦢" }

/-- The state after a question-bearing handler stashes question `q` as the
pending expectation (the written-out form of the stash mutation shared by the
practice handlers). -/
def stashQuestion (st : TeachingState) (q : PracticeQuestion) : TeachingState :=
  { st with current_expected_answer := some q.expected_answer,
            current_acceptable_answers := q.acceptable_answers,
            current_hint := q.hint_text }

/-! ## Library lemmas about the embedded primitives -/

theorem containsL_nil_left : ∀ l : List Char, containsL [] l = true := by
  intro l
  induction l with
  | nil => rfl
  | cons h t ih => simp [containsL, isPrefixL, ih]

theorem pyLower_eq_empty_iff (s : String) : pyLower s = "" ↔ s = "" := by
  cases s with
  | mk data => cases data <;> simp [pyLower, String.ext_iff]

theorem lookup_removeKey {α : Type} (m : List (String × α)) (id : String) :
    (removeKey m id).lookup id = none := by
  induction m with
  | nil => rfl
  | cons p rest ih =>
    obtain ⟨k, v⟩ := p
    by_cases hk : k = id
    · simpa [removeKey, hk] using ih
    · have hk2 : (id == k) = false := beq_eq_false_iff_ne.mpr (Ne.symm hk)
      simpa [removeKey, List.lookup, hk, hk2] using ih

theorem removeKey_idem {α : Type} (m : List (String × α)) (id : String) :
    removeKey (removeKey m id) id = removeKey m id := by
  induction m with
  | nil => rfl
  | cons p rest ih =>
    by_cases hk : p.1 = id
    · simp only [removeKey] at ih ⊢
      simp [hk, ih]
    · simp only [removeKey] at ih ⊢
      simp [List.filter, hk, ih]

theorem removeKey_insertKey {α : Type} (m : List (String × α)) (id : String)
    (v : α) : removeKey (insertKey m id v) id = removeKey m id := by
  simp [insertKey, removeKey, List.filter]

/-! ## The fueled Advance agrees with the recursive one -/

theorem fuel_spec : ∀ (fuel : Nat) (st : TeachingState) (ch : ChapterContent),
    ch.total_concepts - st.current_concept_index < fuel →
    continueTeachingFuel fuel st ch = some (continueTeaching st ch) := by
  intro fuel
  induction fuel with
  | zero => intro st ch h; omega
  | succ n ih =>
    intro st ch h
    rw [continueTeaching]
    rw [continueTeachingFuel]
    by_cases hge : st.current_concept_index ≥ ch.total_concepts
    · simp [hge]
    · simp only [hge, dif_neg, if_neg]
      cases hph : st.concept_phase <;> simp
      apply ih
      simp only [TeachingState.reset_attempts, ChapterContent.total_concepts] at *
      omega

theorem continueTeaching_of_fuel {fuel : Nat} {st : TeachingState}
    {ch : ChapterContent} {out : TeachingState × LearnoResponse}
    (hm : ch.total_concepts - st.current_concept_index < fuel)
    (h : continueTeachingFuel fuel st ch = some out) :
    continueTeaching st ch = out := by
  have hs := fuel_spec fuel st ch hm
  rw [h] at hs
  exact (Option.some_inj.mp hs).symm

/-- Advance never changes the running totals, in fueled form (structural
induction over the fuel). -/
theorem fuel_totals : ∀ (fuel : Nat) (st : TeachingState) (ch : ChapterContent)
    (out : TeachingState × LearnoResponse),
    continueTeachingFuel fuel st ch = some out →
    out.1.total_correct = st.total_correct ∧ out.1.total_wrong = st.total_wrong := by
  intro fuel
  induction fuel with
  | zero => intro st ch out h; simp [continueTeachingFuel] at h
  | succ n ih =>
    intro st ch out h
    rw [continueTeachingFuel] at h
    by_cases hge : st.current_concept_index ≥ ch.total_concepts
    · simp only [if_pos hge] at h
      split at h <;>
      · simp only [Option.some_inj] at h
        subst h
        simp [doChapterReview, doCelebration]
        split <;> simp
    · simp only [if_neg hge] at h
      cases hph : st.concept_phase <;> simp only [hph] at h
      · simp only [Option.some_inj] at h; subst h; simp [doIntroduction]
      · simp only [Option.some_inj] at h; subst h; simp [doExplanation]
      · simp only [Option.some_inj] at h; subst h; simp [doVisualExample]
      · simp only [Option.some_inj] at h; subst h
        simp only [doGuidedPractice, doIndependentPractice, doMasteryCheck]
        split
        · split
          · simp
          · simp
        · simp
      · simp only [Option.some_inj] at h; subst h
        simp only [doIndependentPractice, doMasteryCheck]
        split
        · simp
        · simp
      · simp only [Option.some_inj] at h; subst h; simp [doMasteryCheck]
      · have := ih _ ch out h
        simpa [TeachingState.reset_attempts] using this

/-- Advance never changes the running totals. -/
theorem continueTeaching_totals (st : TeachingState) (ch : ChapterContent) :
    (continueTeaching st ch).1.total_correct = st.total_correct ∧
    (continueTeaching st ch).1.total_wrong = st.total_wrong := by
  have hs := fuel_spec (ch.total_concepts - st.current_concept_index + 1) st ch (by omega)
  exact fuel_totals _ st ch _ hs

/-! ## The claims -/

/-- Claim C4 (confirmed): the answer-evaluation function returns correct if
and only if (a) the trimmed transcript is a case-insensitive exact match of
the canonical expected answer, or (b) some acceptable variant matches the
normalized transcript as a substring in either direction, or (c) the
canonical expected answer occurs among the transcript's digit runs, or
(d) there is no pending expectation. -/
theorem evaluate_iff_spec (transcript : String) (st : TeachingState) :
    evaluateAnswer transcript st = true ↔ specCorrect transcript st := by
  unfold evaluateAnswer specCorrect
  cases hexp : st.current_expected_answer with
  | none => simp
  | some expected =>
    by_cases he : expected = ""
    · subst he; simp
    · simp only [Option.some.injEq, reduceCtorEq, false_or, he, exists_eq_left', if_neg he]
      split_ifs with h0 h1 h2 h3
      · exact absurd h0 (by simp)
      · simp only [true_iff]
        exact Or.inl h1
      · simp only [true_iff]
        rw [List.any_eq_true] at h2
        obtain ⟨a, ha, hpa⟩ := h2
        rw [Bool.or_eq_true _ _] at hpa
        exact Or.inr (Or.inl ⟨a, ha, hpa⟩)
      · simp only [true_iff]
        exact Or.inr (Or.inr h3)
      · simp only [Bool.false_eq_true, false_iff]
        rintro (hc1 | ⟨a, ha, hpa⟩ | hd)
        · exact h1 hc1
        · exact h2 (List.any_eq_true.mpr ⟨a, ha, (Bool.or_eq_true _ _).mpr hpa⟩)
        · exact h3 hd

/-- Claim C1 (corrected, counterexample): with the pending expectation
"3" / ["3","three","tree","free"], the code evaluates the empty transcript as
CORRECT, not incorrect as the claim states — the empty normalized transcript
is a substring of every acceptable variant. -/
theorem evaluate_empty_counterexample :
    ¬ (evaluateAnswer ""
        { current_expected_answer := some "3",
          current_acceptable_answers := ["3", "three", "tree", "free"] } = false) := by
  decide

/-- Claim C1 (corrected, amended): for every pending expectation (non-empty
expected answer), the empty transcript evaluates as incorrect precisely when
the acceptable-variants list is empty — with any acceptable variant present
it evaluates as correct, because the empty normalized transcript
substring-matches every variant; and "seven" against expected "3" with
acceptable ["3","three"] evaluates as incorrect. -/
theorem evaluate_empty_transcript (st : TeachingState) (e : String)
    (he : st.current_expected_answer = some e) (hne : e ≠ "") :
    (evaluateAnswer "" st = true ↔ st.current_acceptable_answers ≠ []) ∧
    evaluateAnswer "seven"
      { current_expected_answer := some "3",
        current_acceptable_answers := ["3", "three"] } = false := by
  refine ⟨?_, by decide⟩
  unfold evaluateAnswer
  rw [he]
  simp only [if_neg hne]
  have hlow : ¬ (pyStrip (pyLower "") = pyLower e) := by
    intro hcontra
    exact hne ((pyLower_eq_empty_iff e).mp hcontra.symm)
  rw [if_neg hlow]
  have hcont : ∀ a : String,
      (pyContains (pyStrip (pyLower "")) (pyLower a) ||
       pyContains (pyLower a) (pyStrip (pyLower ""))) = true := by
    intro a
    have h2 : pyContains (pyLower a) (pyStrip (pyLower "")) = true :=
      containsL_nil_left (pyLower a).data
    simp [h2]
  have hruns : digitRuns "" = [] := rfl
  cases hacc : st.current_acceptable_answers with
  | nil => simp [List.any, hruns]
  | cons a as => simp [List.any, hcont a]

/-- Claim C1 witness: the amended statement at the first guided question of
the counting chapter. -/
theorem evaluate_empty_witness :
    (evaluateAnswer "" guidedState = true ↔ guidedState.current_acceptable_answers ≠ []) ∧
    evaluateAnswer "seven"
      { current_expected_answer := some "3",
        current_acceptable_answers := ["3", "three"] } = false :=
  evaluate_empty_transcript guidedState "2" rfl (by decide)

/-- Claim C2 (corrected, counterexample): on a post-celebration `COMPLETED`
state of the counting chapter, a further `ContinueTeaching` changes the
lesson phase to `CHAPTER_REVIEW` — `COMPLETED` is not terminal as the claim
states. -/
theorem completed_reenters_review :
    (continueTeaching completedState countingChapter).1.lesson_phase = .chapter_review ∧
    LessonPhase.chapter_review ≠ LessonPhase.completed := by
  refine ⟨?_, by decide⟩
  have hd : (continueTeachingFuel 6 completedState countingChapter).map
      (fun o => o.1.lesson_phase) = some .chapter_review := by decide
  rw [fuel_spec 6 completedState countingChapter (by decide)] at hd
  simpa using hd

/-- Advance on a state whose lesson phase is not `CHAPTER_REVIEW` but whose
concept cursor is past the last concept re-enters `CHAPTER_REVIEW` with the
review index reset to 0, provided the chapter has review questions. -/
theorem continueTeaching_reenters_review (st : TeachingState) (ch : ChapterContent)
    (hne : st.lesson_phase ≠ .chapter_review)
    (hge : st.current_concept_index ≥ ch.total_concepts)
    (hrev : ch.review_questions ≠ []) :
    (continueTeaching st ch).1.lesson_phase = .chapter_review ∧
    (continueTeaching st ch).1.review_question_index = 0 := by
  rw [continueTeaching]
  rw [dif_pos hge]
  rw [if_pos hne]
  unfold doChapterReview
  have hlen : ¬ ((0 : Nat) ≥ ch.review_questions.length) := by
    cases hr : ch.review_questions
    · exact absurd hr hrev
    · simp
  rw [if_neg hlen]
  exact ⟨rfl, rfl⟩

/-- `record_wrong` never touches the lesson phase. -/
theorem record_wrong_phase (st : TeachingState) :
    (st.record_wrong).lesson_phase = st.lesson_phase := by
  unfold TeachingState.record_wrong
  simp only []
  split <;> rfl

/-- Cursor advancement after a correct answer never touches the lesson phase
or the concept index. -/
theorem advanceAfterCorrect_phase_idx (st : TeachingState) :
    (advanceAfterCorrect st).lesson_phase = st.lesson_phase ∧
    (advanceAfterCorrect st).current_concept_index = st.current_concept_index := by
  unfold advanceAfterCorrect TeachingState.reset_attempts
  simp only []
  split_ifs <;> simp

/-- Claim C2 (corrected, amended): `COMPLETED` is terminal for
`NotifySilence` and for a `SubmitAnswer` whose answer evaluates as
incorrect; but a `ContinueTeaching` on a completed session (whose concept
index is past the last concept) sets the lesson phase back to
`CHAPTER_REVIEW` and resets the review index to 0 whenever the chapter has
review questions, and a `SubmitAnswer` whose answer evaluates as correct
re-runs Advance and likewise re-enters `CHAPTER_REVIEW` with review index
0. -/
theorem completed_phase_terminality (st : TeachingState) (ch : ChapterContent)
    (hc : st.lesson_phase = .completed) :
    (handleSilence st ch).1.lesson_phase = .completed ∧
    (st.current_concept_index ≥ ch.total_concepts → ch.review_questions ≠ [] →
      (continueTeaching st ch).1.lesson_phase = .chapter_review ∧
      (continueTeaching st ch).1.review_question_index = 0) ∧
    (∀ t, evaluateAnswer t st = false →
      (processResponse t st ch).1.lesson_phase = .completed) ∧
    (∀ t, evaluateAnswer t st = true →
      st.current_concept_index ≥ ch.total_concepts → ch.review_questions ≠ [] →
      (processResponse t st ch).1.lesson_phase = .chapter_review ∧
      (processResponse t st ch).1.review_question_index = 0) := by
  refine ⟨by simpa [handleSilence] using hc, ?_, ?_, ?_⟩
  · intro hge hrev
    exact continueTeaching_reenters_review st ch (by rw [hc]; decide) hge hrev
  · intro t hev
    unfold processResponse
    rw [if_neg (by simp [hev])]
    show (st.record_wrong).lesson_phase = .completed
    rw [record_wrong_phase]
    exact hc
  · intro t hev hge hrev
    unfold processResponse
    rw [if_pos hev]
    show (continueTeaching (advanceAfterCorrect st.record_correct) ch).1.lesson_phase
          = .chapter_review ∧
         (continueTeaching (advanceAfterCorrect st.record_correct) ch).1.review_question_index
          = 0
    have hadv := advanceAfterCorrect_phase_idx st.record_correct
    have hph : (advanceAfterCorrect st.record_correct).lesson_phase = .completed := by
      rw [hadv.1]; exact hc
    have hidx : (advanceAfterCorrect st.record_correct).current_concept_index ≥
        ch.total_concepts := by
      rw [hadv.2]; exact hge
    exact continueTeaching_reenters_review (advanceAfterCorrect st.record_correct) ch
      (by rw [hph]; decide) hidx hrev

/-- Claim C2 witness: the amended statement at the post-celebration state of
the counting chapter: silence and the wrong answer "hello" leave the phase
`COMPLETED`; ContinueTeaching and the correct answer "6" re-enter
`CHAPTER_REVIEW` with review index 0. -/
theorem completed_phase_terminality_witness :
    (handleSilence completedState countingChapter).1.lesson_phase = .completed ∧
    ((continueTeaching completedState countingChapter).1.lesson_phase = .chapter_review ∧
     (continueTeaching completedState countingChapter).1.review_question_index = 0) ∧
    (processResponse "hello" completedState countingChapter).1.lesson_phase = .completed ∧
    ((processResponse "6" completedState countingChapter).1.lesson_phase = .chapter_review ∧
     (processResponse "6" completedState countingChapter).1.review_question_index = 0) :=
  ⟨(completed_phase_terminality completedState countingChapter rfl).1,
   (completed_phase_terminality completedState countingChapter rfl).2.1 (by decide) (by decide),
   (completed_phase_terminality completedState countingChapter rfl).2.2.1 "hello" (by decide),
   (completed_phase_terminality completedState countingChapter rfl).2.2.2 "6"
     (by decide) (by decide) (by decide)⟩

/-- Claim C3 (corrected, counterexample): the progress snapshot returned by a
successful `StartLesson(grade=2, subject="Math", lesson="counting")` does NOT
show lesson phase `WELCOME` — the handler sets the phase to `TEACHING` before
taking the snapshot. -/
theorem start_snapshot_counterexample :
    ¬ ((startLesson {} "s1" 2 "Math" "counting").toOption.map
        (fun r => r.2.2.progress_info.lesson_phase) = some .welcome) := by
  decide

/-- Claim C3 (corrected, amended): `StartLesson(2, "Math", "counting")`
succeeds and its returned snapshot shows lesson phase `TEACHING` (response
type "welcome"; the state was `WELCOME` only during the render), with concept
index 0 and concept phase `INTRODUCTION` stored; the first `ContinueTeaching`
then renders the introduction and returns lesson phase `TEACHING`, concept
index 0 (displayed as concept 1 of 5) and concept phase `EXPLANATION`. -/
theorem start_handoff :
    startLesson {} "s1" 2 "Math" "counting" =
      .ok (startedWorld, startedSession,
        { response_type := "welcome",
          progress_info := ⟨.teaching, 1, 5, .introduction, 0, 0⟩ }) ∧
    continueTeachingW startedWorld "s1" =
      .ok ({ startedWorld with
              teaching_states :=
                [("s1", { postStartState with concept_phase := .explanation })] },
           { response_type := "concept_introduction",
             progress_info := ⟨.teaching, 1, 5, .explanation, 0, 0⟩ }) := by
  constructor
  · rfl
  · have hc : continueTeaching postStartState countingChapter =
        ({ postStartState with concept_phase := .explanation },
         { response_type := "concept_introduction", is_lesson_complete := false,
           progress_info := ⟨.teaching, 1, 5, .explanation, 0, 0⟩ }) :=
      @continueTeaching_of_fuel 6 postStartState countingChapter _ (by decide) (by decide)
    have hW : continueTeachingW startedWorld "s1" =
        .ok ({ startedWorld with
                teaching_states := insertKey startedWorld.teaching_states "s1"
                  (continueTeaching postStartState countingChapter).1 },
             (continueTeaching postStartState countingChapter).2) := rfl
    rw [hW, hc]
    rfl

/-- The `record_wrong` method leaves `total_correct` alone and increments
`total_wrong` by one, in both the help-escalation and the ordinary branch. -/
theorem record_wrong_totals (st : TeachingState) :
    (st.record_wrong).total_correct = st.total_correct ∧
    (st.record_wrong).total_wrong = st.total_wrong + 1 := by
  unfold TeachingState.record_wrong
  simp only []
  split <;> simp

/-- Cursor advancement after a correct answer never touches the totals. -/
theorem advanceAfterCorrect_totals (st : TeachingState) :
    (advanceAfterCorrect st).total_correct = st.total_correct ∧
    (advanceAfterCorrect st).total_wrong = st.total_wrong := by
  unfold advanceAfterCorrect TeachingState.reset_attempts
  simp only []
  split_ifs <;> simp

/-- Every evaluated answer increments exactly one of the two totals. -/
theorem processResponse_sum (t : String) (st : TeachingState) (ch : ChapterContent) :
    (processResponse t st ch).1.total_correct + (processResponse t st ch).1.total_wrong =
      st.total_correct + st.total_wrong + 1 := by
  unfold processResponse
  split_ifs with hev
  · have h1 := continueTeaching_totals (advanceAfterCorrect st.record_correct) ch
    have h2 := advanceAfterCorrect_totals st.record_correct
    have h3 : (st.record_correct).total_correct = st.total_correct + 1 := rfl
    have h4 : (st.record_correct).total_wrong = st.total_wrong := rfl
    unfold handleCorrectAnswer
    simp only []
    rw [h1.1, h1.2, h2.1, h2.2, h3, h4]
    omega
  · have h5 := record_wrong_totals st
    unfold handleWrongAnswer
    simp only []
    rw [h5.1, h5.2]
    omega

/-- Totals over a whole trace grow by exactly the number of submissions. -/
theorem runOps_sum (ch : ChapterContent) (ops : List TeachOp) :
    ∀ st : TeachingState,
      (runOps ch st ops).total_correct + (runOps ch st ops).total_wrong =
        st.total_correct + st.total_wrong + countEvaluated ops := by
  induction ops with
  | nil => intro st; simp [runOps, countEvaluated]
  | cons op ops ih =>
    intro st
    rw [runOps, ih]
    cases op with
    | continueStep =>
      have h := continueTeaching_totals st ch
      simp only [stepOp, countEvaluated, h.1, h.2]
    | submit t =>
      have h := processResponse_sum t st ch
      simp only [stepOp, countEvaluated]
      omega
    | silence => simp [stepOp, handleSilence, countEvaluated]

/-- Claim C5 (confirmed): after any trace of operations on a session,
`total_correct + total_wrong` grew by exactly the number of `SubmitAnswer`
calls that reached an evaluation — each evaluated answer increments exactly
one of the two totals and no operation ever resets them — and from the
freshly started state the sum equals that count. -/
theorem counters_count_evaluations (ch : ChapterContent) (st : TeachingState)
    (ops : List TeachOp) :
    (runOps ch st ops).total_correct + (runOps ch st ops).total_wrong =
      st.total_correct + st.total_wrong + countEvaluated ops ∧
    (runOps ch postStartState ops).total_correct +
      (runOps ch postStartState ops).total_wrong = countEvaluated ops := by
  refine ⟨runOps_sum ch ops st, ?_⟩
  have := runOps_sum ch ops postStartState
  simpa [postStartState] using this

/-- Advance dispatches to the guided-practice handler whenever the concept
cursor is in range and the concept phase says `GUIDED_PRACTICE`. -/
theorem continueTeaching_guided_step (st : TeachingState) (ch : ChapterContent)
    (hidx : st.current_concept_index < ch.total_concepts)
    (hph : st.concept_phase = .guided_practice) :
    continueTeaching st ch =
      doGuidedPractice st (ch.concepts.getD st.current_concept_index default) ch := by
  rw [continueTeaching]
  rw [dif_neg (by omega)]
  simp only [hph]

/-- With a question left at the guided index, the guided-practice handler
only stashes that question — no cursor moves. -/
theorem doGuidedPractice_pending (st : TeachingState) (concept : ConceptContent)
    (ch : ChapterContent)
    (hq : st.guided_question_index < concept.guided_questions.length) :
    (doGuidedPractice st concept ch).1 =
      stashQuestion st (concept.guided_questions.getD st.guided_question_index default) := by
  unfold doGuidedPractice
  rw [if_neg (by omega)]
  rfl

/-- Claim C6 (confirmed): in `GUIDED_PRACTICE` with a pending question, three
consecutive `ContinueTeaching` calls with no intervening `SubmitAnswer` leave
the guided-question index unchanged, stash the same pending question, and
indeed leave the whole teaching state fixed after the first call. -/
theorem guided_continue_idempotent (st : TeachingState) (ch : ChapterContent)
    (hidx : st.current_concept_index < ch.total_concepts)
    (hph : st.concept_phase = .guided_practice)
    (hq : st.guided_question_index <
        (ch.concepts.getD st.current_concept_index default).guided_questions.length) :
    (continueTeaching st ch).1.guided_question_index = st.guided_question_index ∧
    (continueTeaching (continueTeaching st ch).1 ch).1.guided_question_index
      = st.guided_question_index ∧
    (continueTeaching (continueTeaching (continueTeaching st ch).1 ch).1 ch).1.guided_question_index
      = st.guided_question_index ∧
    (continueTeaching st ch).1.current_expected_answer
      = some ((ch.concepts.getD st.current_concept_index default).guided_questions.getD
          st.guided_question_index default).expected_answer ∧
    (continueTeaching (continueTeaching st ch).1 ch).1
      = (continueTeaching st ch).1 ∧
    (continueTeaching (continueTeaching (continueTeaching st ch).1 ch).1 ch).1
      = (continueTeaching st ch).1 := by
  set q := (ch.concepts.getD st.current_concept_index default).guided_questions.getD
      st.guided_question_index default with hqdef
  have h1 : (continueTeaching st ch).1 = stashQuestion st q := by
    rw [continueTeaching_guided_step st ch hidx hph]
    exact doGuidedPractice_pending st _ ch hq
  have hidx2 : (stashQuestion st q).current_concept_index < ch.total_concepts := by
    simpa [stashQuestion] using hidx
  have hph2 : (stashQuestion st q).concept_phase = .guided_practice := by
    simpa [stashQuestion] using hph
  have hq2 : (stashQuestion st q).guided_question_index <
      (ch.concepts.getD (stashQuestion st q).current_concept_index
        default).guided_questions.length := by
    simpa [stashQuestion] using hq
  have h2 : (continueTeaching (stashQuestion st q) ch).1 = stashQuestion st q := by
    have hstep := continueTeaching_guided_step (stashQuestion st q) ch hidx2 hph2
    have hpend := doGuidedPractice_pending (stashQuestion st q)
      (ch.concepts.getD (stashQuestion st q).current_concept_index default) ch hq2
    rw [hstep, hpend]
    simp [stashQuestion, hqdef, List.getD]
  rw [h1, h2, h2]
  refine ⟨rfl, rfl, rfl, rfl, rfl, rfl⟩

/-- Claim C6 witness: the first guided question of the counting chapter. -/
theorem guided_continue_idempotent_witness :
    (continueTeaching guidedState countingChapter).1.guided_question_index =
      guidedState.guided_question_index ∧
    (continueTeaching (continueTeaching guidedState countingChapter).1
      countingChapter).1.guided_question_index = guidedState.guided_question_index ∧
    (continueTeaching (continueTeaching (continueTeaching guidedState countingChapter).1
      countingChapter).1 countingChapter).1.guided_question_index =
      guidedState.guided_question_index ∧
    (continueTeaching guidedState countingChapter).1.current_expected_answer =
      some ((countingChapter.concepts.getD guidedState.current_concept_index
        default).guided_questions.getD guidedState.guided_question_index
        default).expected_answer ∧
    (continueTeaching (continueTeaching guidedState countingChapter).1 countingChapter).1 =
      (continueTeaching guidedState countingChapter).1 ∧
    (continueTeaching (continueTeaching (continueTeaching guidedState countingChapter).1
      countingChapter).1 countingChapter).1 =
      (continueTeaching guidedState countingChapter).1 :=
  guided_continue_idempotent guidedState countingChapter (by decide) (by decide) (by decide)

/-- Claim C7 (corrected, counterexample): `SubmitAnswer` increments the
correct-counter BEFORE the praise render, so when the first phrasing call of
the operation fails, the operation aborts with a teaching state that differs
from the pre-operation state — not "exactly as it was" as the claim states. -/
theorem respond_mutates_before_render :
    processResponseF (fun _ => false) 0 "2" guidedState countingChapter =
      .error { guidedState with total_correct := 1 } ∧
    ({ guidedState with total_correct := 1 } : TeachingState) ≠ guidedState := by
  constructor
  · rfl
  · decide

/-- Claim C7 (corrected, amended): in the non-skipping Advance steps —
introduction, explanation, visual example, mastery check, and a
guided/independent step with a question left at its cursor — state mutation
happens strictly after the render succeeds, so a phrasing failure there
aborts with the teaching state exactly as it was; but `SubmitAnswer` updates
the counters before its praise/hint render, and the phase-skip branches of
Advance (question cursor past its bound, review entry, celebration entry)
mutate state before the fall-through render, so failures there abort with the
state already changed. -/
theorem leaf_render_failure_atomic (env : Nat → Bool) (k : Nat)
    (st : TeachingState) (ch : ChapterContent)
    (hfail : env k = false)
    (hidx : st.current_concept_index < ch.total_concepts)
    (hleaf : st.concept_phase = .introduction ∨ st.concept_phase = .explanation ∨
         st.concept_phase = .visual_example ∨ st.concept_phase = .concept_check ∨
         (st.concept_phase = .guided_practice ∧ st.guided_question_index <
           (ch.concepts.getD st.current_concept_index default).guided_questions.length) ∨
         (st.concept_phase = .independent_practice ∧ st.independent_question_index <
           (ch.concepts.getD st.current_concept_index default).independent_questions.length)) :
    continueTeachingF env k st ch = .error st := by
  rw [continueTeachingF]
  rw [dif_neg (by omega)]
  rcases hleaf with h | h | h | h | ⟨h, hq⟩ | ⟨h, hq⟩
  · simp only [h]; simp [doIntroductionF, hfail]
  · simp only [h]; simp [doExplanationF, hfail]
  · simp only [h]; simp [doVisualExampleF, hfail]
  · simp only [h]; simp [doMasteryCheckF, hfail]
  · simp only [h]
    unfold doGuidedPracticeF
    rw [if_neg (by omega)]
    simp [hfail]
  · simp only [h]
    unfold doIndependentPracticeF
    rw [if_neg (by omega)]
    simp [hfail]

/-- Claim C7 witness: a failing welcome-to-introduction render right after a
lesson start leaves the state exactly as stored by `start_lesson`. -/
theorem leaf_render_failure_atomic_witness :
    continueTeachingF (fun _ => false) 0 postStartState countingChapter =
      .error postStartState :=
  leaf_render_failure_atomic (fun _ => false) 0 postStartState countingChapter rfl
    (by decide) (Or.inl rfl)

/-- Claim C8 (confirmed): the Advance self-recursion terminates for every
teaching state and chapter — each self-call strictly increases the concept
index, which the dispatch guard bounds by the number of concepts — so with
any call budget of at least `total_concepts + 1` (a fortiori the claim's
`total concepts + questions per concept`) the fueled Advance completes and
agrees with the recursive one. -/
theorem advance_recursion_bounded (st : TeachingState) (ch : ChapterContent)
    (fuel : Nat) (hf : ch.total_concepts + 1 ≤ fuel) :
    continueTeachingFuel fuel st ch = some (continueTeaching st ch) :=
  fuel_spec fuel st ch (by omega)

/-- Claim C8 witness: six units of fuel cover the counting chapter from the
post-celebration state. -/
theorem advance_recursion_bounded_witness :
    continueTeachingFuel 6 completedState countingChapter =
      some (continueTeaching completedState countingChapter) :=
  advance_recursion_bounded completedState countingChapter 6 (by decide)

/-- Claim C9 (confirmed): a (grade, subject, lesson) triple off the
availability whitelist — in particular (2, "Science", "counting") — makes
`start_lesson` fail with LessonNotAvailable before creating any session or
teaching state: the error is raised before any store mutation, so the world
is untouched. -/
theorem unavailable_lesson_rejected (w : World) (newId : String) (grade : Int)
    (subject lesson : String)
    (h : isChapterAvailable grade subject lesson = false) :
    isChapterAvailable 2 "Science" "counting" = false ∧
    startLesson w newId grade subject lesson = .error .lessonNotAvailable := by
  refine ⟨by decide, ?_⟩
  unfold startLesson
  have hng : ¬ (isChapterAvailable grade subject lesson = true) := by rw [h]; simp
  rw [if_pos hng]

/-- Claim C9 witness: grade-2 Science counting is rejected on the empty
world. -/
theorem unavailable_lesson_rejected_witness :
    isChapterAvailable 2 "Science" "counting" = false ∧
    startLesson {} "u1" 2 "Science" "counting" = .error .lessonNotAvailable :=
  unavailable_lesson_rejected {} "u1" 2 "Science" "counting" (by decide)

/-- Claim C10 (confirmed): `end_lesson` never validates the session — it is
total for every id (it never raises SessionNotFound/SessionExpired since it
never calls `get_session`); for an id with no teaching state it fabricates a
fresh state, returns the summary {concepts_completed 0, total_correct 0,
total_wrong 0, is_complete false}, and deletes both the teaching state and
the session entry, the session deletion being idempotent. -/
theorem end_lesson_unvalidated (w : World) (id : String)
    (h : w.teaching_states.lookup id = none) :
    (endLesson w id).1 = ⟨0, 0, 0, false⟩ ∧
    (endLesson w id).2.teaching_states.lookup id = none ∧
    (endLesson w id).2.sessions.lookup id = none ∧
    deleteSession (deleteSession w.sessions id) id = deleteSession w.sessions id := by
  unfold endLesson getStateM
  rw [h]
  refine ⟨rfl, ?_, ?_, ?_⟩
  · exact lookup_removeKey _ _
  · exact lookup_removeKey _ _
  · exact removeKey_idem _ _

/-- Claim C10 witness: ending a session that has a session record but no
teaching state. -/
theorem end_lesson_unvalidated_witness :
    (endLesson { sessions := [("s1", startedSession)] } "s1").1 = ⟨0, 0, 0, false⟩ ∧
    (endLesson { sessions := [("s1", startedSession)] } "s1").2.teaching_states.lookup "s1"
      = none ∧
    (endLesson { sessions := [("s1", startedSession)] } "s1").2.sessions.lookup "s1"
      = none ∧
    deleteSession
        (deleteSession ({ sessions := [("s1", startedSession)] } : World).sessions "s1") "s1" =
      deleteSession ({ sessions := [("s1", startedSession)] } : World).sessions "s1" :=
  end_lesson_unvalidated { sessions := [("s1", startedSession)] } "s1" rfl

end Learno
